import Mathlib

/-!
Verification of the asi-core verification-and-settlement pipeline.

Shallow embedding of:
- `oryn-verifier/ticket_verifier.py` (TicketVerifier, MockIPFSClient,
  MockWeb3Client, VerifierDaemon),
- `task-system/verifier_service.py` (TaskValidator, ReportSigner,
  TaskVerifierService),
- `task-system/submit_evidence.py` (TaskRegistryClient),
together with a spec-side model of the TaskRegistry ledger contract
(whose Solidity source is not part of the repository; only its ABI and
callers are).

Scores and weights are embedded as rationals (Python floats in the source),
dictionaries as association lists, exceptions as `Except`, and the
network/IO boundary (IPFS fetch, contract calls, the individual check
methods that await external services) as explicit function parameters.
-/

/-! ## JSON canonical-serialization helpers

Model of `json.dumps(..., sort_keys=True, ...)` as used by
`MockIPFSClient.add_json` and `ReportSigner.sign_report`.
`sort_keys=True` makes the encoder emit `sorted(dct.items())`, i.e. the
item pairs sorted lexicographically; dictionary keys are unique so this
is a sort by key. -/

def escChar (c : Char) : String :=
  if c = '"' then "\\\""
  else if c = '\\' then "\\\\"
  else if c = '\n' then "\\n"
  else if c = '\t' then "\\t"
  else if c = '\r' then "\\r"
  else String.singleton c

def jsonEscape (s : String) : String :=
  String.join (s.toList.map escChar)

def jstr (s : String) : String :=
  "\"" ++ jsonEscape s ++ "\""

/-- Python's `str.lower()` (character-wise lowering). -/
def strToLower (s : String) : String :=
  String.mk (s.data.map Char.toLower)

/-- Lexicographic order on string pairs, as Python compares the
`(key, value)` tuples of `sorted(dct.items())`. -/
def pairLe (a b : String × String) : Prop :=
  a.1 < b.1 ∨ (a.1 = b.1 ∧ a.2 ≤ b.2)

instance : DecidableRel pairLe := fun a b =>
  inferInstanceAs (Decidable (a.1 < b.1 ∨ (a.1 = b.1 ∧ a.2 ≤ b.2)))

instance : IsTotal (String × String) pairLe := by
  constructor
  intro a b
  rcases lt_trichotomy a.1 b.1 with h | h | h
  · exact Or.inl (Or.inl h)
  · rcases le_total a.2 b.2 with h2 | h2
    · exact Or.inl (Or.inr ⟨h, h2⟩)
    · exact Or.inr (Or.inr ⟨h.symm, h2⟩)
  · exact Or.inr (Or.inl h)

instance : IsTrans (String × String) pairLe := by
  constructor
  intro a b c hab hbc
  rcases hab with h1 | ⟨h1, h1v⟩
  · rcases hbc with h2 | ⟨h2, _⟩
    · exact Or.inl (h1.trans h2)
    · exact Or.inl (h2 ▸ h1)
  · rcases hbc with h2 | ⟨h2, h2v⟩
    · exact Or.inl (h1 ▸ h2)
    · exact Or.inr ⟨h1.trans h2, h1v.trans h2v⟩

instance : IsAntisymm (String × String) pairLe := by
  constructor
  intro a b hab hba
  rcases hab with h1 | ⟨h1, h1v⟩
  · rcases hba with h2 | ⟨h2, _⟩
    · exact absurd (h1.trans h2) (lt_irrefl _)
    · exact absurd h1 (h2 ▸ lt_irrefl _)
  · rcases hba with h2 | ⟨_, h2v⟩
    · exact absurd h2 (h1 ▸ lt_irrefl _)
    · exact Prod.ext h1 (le_antisymm h1v h2v)

/-- Order by key only, used for rendering the nested maps of a report
(keys are unique in the source dictionaries). -/
def keyLe {α : Type} (a b : String × α) : Prop := a.1 ≤ b.1

instance {α : Type} : DecidableRel (keyLe (α := α)) := fun a b =>
  inferInstanceAs (Decidable (a.1 ≤ b.1))

instance {α : Type} : IsTotal (String × α) keyLe :=
  ⟨fun a b => le_total a.1 b.1⟩

instance {α : Type} : IsTrans (String × α) keyLe :=
  ⟨fun _ _ _ h1 h2 => le_trans h1 h2⟩

/-- Items of a string-valued dict in `sort_keys=True` order. -/
def sortedItems (d : List (String × String)) : List (String × String) :=
  d.insertionSort pairLe

/-- `json.dumps(data, sort_keys=True)` on a flat string-valued dict
(default separators are a comma-space and a colon-space). -/
def dumpsSorted (d : List (String × String)) : String :=
  "\x7b" ++ String.intercalate ", "
    ((sortedItems d).map (fun p => jstr p.1 ++ ": " ++ jstr p.2)) ++ "\x7d"

/-- Compact rendering (separators comma and colon) of a string-valued
dict with sorted keys. -/
def renderStrMap (m : List (String × String)) : String :=
  "\x7b" ++ String.intercalate ","
    ((m.insertionSort pairLe).map (fun p => jstr p.1 ++ ":" ++ jstr p.2)) ++ "\x7d"

def renderBool (b : Bool) : String := if b then "true" else "false"

def renderBoolMap (m : List (String × Bool)) : String :=
  "\x7b" ++ String.intercalate ","
    ((m.insertionSort keyLe).map (fun p => jstr p.1 ++ ":" ++ renderBool p.2)) ++ "\x7d"

def renderIntMap (m : List (String × Int)) : String :=
  "\x7b" ++ String.intercalate ","
    ((m.insertionSort keyLe).map (fun p => jstr p.1 ++ ":" ++ toString p.2)) ++ "\x7d"

def renderStrList (xs : List String) : String :=
  "[" ++ String.intercalate "," (xs.map jstr) ++ "]"

def renderOptStr : Option String → String
  | none => "null"
  | some s => jstr s

def renderOptInt : Option Int → String
  | none => "null"
  | some n => toString n

/-! ## oryn-verifier/ticket_verifier.py -/

namespace TicketVerifier

/-- A flat structured value appearing in a check's `details` dict. -/
inductive DVal : Type
  | s (v : String)
  | n (v : ℚ)
  | b (v : Bool)
deriving DecidableEq

/-- Result dict of one verification check:
`passed`, `score`, `details`. -/
structure CheckRes : Type where
  passed : Bool
  score : ℚ
  details : List (String × DVal)
deriving DecidableEq

/-- The fields of the evidence dict that the built-in checks read
(`github_pr`, `files_changed`, `description`, `tests_passing`,
`lint_passed`); missing keys are read through `.get` with the listed
defaults in the source, which the `Option`/defaults here mirror. -/
structure Evidence : Type where
  github_pr : Option String
  files_changed : List String
  description : String
  tests_passing : Bool
  lint_passed : Bool
deriving DecidableEq

/-- `TicketSpec` dataclass. -/
structure TicketSpec : Type where
  title : String
  category : String
  difficulty : Int
  credit_reward : Int
  dod : String
  evidence_requirements : List (String × Bool)
  skill_tags : List String
  estimated_hours : Int
deriving DecidableEq

/-- The configuration fields consumed by verification
(`quality_threshold`, `check_weights`). -/
structure Config : Type where
  quality_threshold : ℚ
  check_weights : List (String × ℚ)
deriving DecidableEq

/-- `default_config` of `TicketVerifier._load_config`. -/
def defaultConfig : Config :=
  { quality_threshold := 7/10
    check_weights :=
      [("code_review", 3/10), ("tests_passing", 25/100),
       ("documentation", 2/10), ("accessibility", 15/100),
       ("security_scan", 1/10)] }

/-- `self.config["check_weights"].get(check_name, 0.1)`. -/
def weightOf (cfg : Config) (name : String) : ℚ :=
  (cfg.check_weights.lookup name).getD (1/10)

/-- `spec.evidence_requirements.get(name, False)`. -/
def reqGet (reqs : List (String × Bool)) (name : String) : Bool :=
  (reqs.lookup name).getD false

/-- `TicketVerifier._check_code_review`. -/
def check_code_review (evidence : Evidence) : CheckRes :=
  match evidence.github_pr with
  | some pr =>
    { passed := true, score := 85/100
      details :=
        [("pr_url", .s pr),
         ("files_changed", .n evidence.files_changed.length),
         ("review_comments", .n 3),
         ("approved_by_maintainer", .b true)] }
  | none =>
    { passed := false, score := 0
      details := [("error", .s "Kein GitHub PR Link gefunden")] }

/-- `TicketVerifier._check_tests`. -/
def check_tests (evidence : Evidence) : CheckRes :=
  { passed := evidence.tests_passing
    score := if evidence.tests_passing then 1 else 0
    details :=
      [("all_tests_pass", .b evidence.tests_passing),
       ("test_coverage", .n 85),
       ("new_tests_added", .b true)] }

/-- Substring containment, modelling the Python `in` operator on
strings. -/
def strContains (haystack needle : String) : Bool :=
  decide ((haystack.splitOn needle).length > 1) || needle = haystack

/-- `TicketVerifier._check_documentation`. -/
def check_documentation (evidence : Evidence) : CheckRes :=
  let description := strToLower evidence.description
  let has_docs :=
    ["documentation", "readme", "docs", "documented"].any
      (fun w => strContains description w)
  { passed := has_docs
    score := if has_docs then 9/10 else 3/10
    details :=
      [("documentation_mentioned", .b has_docs),
       ("readme_updated", .b has_docs),
       ("api_docs_complete", .b true)] }

/-- `TicketVerifier._check_security`. -/
def check_security (_evidence : Evidence) : CheckRes :=
  { passed := true, score := 9/10
    details :=
      [("no_vulnerabilities", .b true),
       ("secure_patterns_used", .b true),
       ("sensitive_data_handled", .b true)] }

/-- `TicketVerifier._check_accessibility`. -/
def check_accessibility (_evidence : Evidence) : CheckRes :=
  { passed := true, score := 8/10
    details :=
      [("lighthouse_score", .n 92),
       ("wcag_compliant", .b true),
       ("keyboard_navigation", .b true)] }

/-- The five check methods as awaited by
`_perform_verification_checks`.  They are `await`ed calls (network/CI
in the real system) and may therefore raise, which `Except` models;
the built-in bodies are the total functions above. -/
structure Checks : Type where
  code_review : Evidence → Except String CheckRes
  tests_passing : Evidence → Except String CheckRes
  documentation : Evidence → Except String CheckRes
  security : Evidence → Except String CheckRes
  accessibility : Evidence → Except String CheckRes

/-- The built-in check methods of the `TicketVerifier` class. -/
def defaultChecks : Checks :=
  { code_review := fun e => .ok (check_code_review e)
    tests_passing := fun e => .ok (check_tests e)
    documentation := fun e => .ok (check_documentation e)
    security := fun e => .ok (check_security e)
    accessibility := fun e => .ok (check_accessibility e) }

/-- One conditional `results[name] = await self._check_...(evidence)`
step of `_perform_verification_checks`; the check call is outside any
per-check exception handler, so its error propagates. -/
def addCheck (acc : List (String × CheckRes)) (cond : Bool) (name : String)
    (run : Except String CheckRes) : Except String (List (String × CheckRes)) :=
  if cond then run.map (fun c => acc ++ [(name, c)]) else pure acc

/-- `TicketVerifier._perform_verification_checks`: run the checks
required by `evidence_requirements` plus the category-forced ones, in
source order, collecting named results. -/
def perform_verification_checks (cs : Checks) (evidence : Evidence)
    (spec : TicketSpec) : Except String (List (String × CheckRes)) := do
  let r ← addCheck [] (reqGet spec.evidence_requirements "code_review")
    "code_review" (cs.code_review evidence)
  let r ← addCheck r (reqGet spec.evidence_requirements "tests_passing")
    "tests_passing" (cs.tests_passing evidence)
  let r ← addCheck r (reqGet spec.evidence_requirements "documentation")
    "documentation" (cs.documentation evidence)
  let r ← addCheck r (decide (spec.category = "security"))
    "security_scan" (cs.security evidence)
  let r ← addCheck r (decide (spec.category = "ui"))
    "accessibility" (cs.accessibility evidence)
  pure r

/-- `TicketVerifier._calculate_overall_score`. -/
def calculate_overall_score (cfg : Config)
    (checks_results : List (String × CheckRes)) : ℚ :=
  if checks_results = [] then 0
  else
    let total_score :=
      (checks_results.map (fun p => p.2.score * weightOf cfg p.1)).sum
    let total_weight :=
      (checks_results.map (fun p => weightOf cfg p.1)).sum
    if 0 < total_weight then total_score / total_weight else 0

/-- The dynamically-typed `details` field of a `VerificationResult`:
the map of check results on the normal path, an error record on the
fallback path. -/
inductive VDetails : Type
  | checks (m : List (String × CheckRes))
  | errorMsg (e : String)
deriving DecidableEq

/-- `VerificationResult` dataclass. -/
structure VerificationResult : Type where
  ticket_id : String
  evidence_cid : String
  passed : Bool
  score : ℚ
  checks_performed : List String
  details : VDetails
  verification_timestamp : String
  verifier_version : String
deriving DecidableEq

/-- The fallback `VerificationResult` built in the `except` arm of
`verify_ticket_evidence`. -/
def fallbackResult (ticket_id evidence_cid timestamp version e : String) :
    VerificationResult :=
  { ticket_id := ticket_id
    evidence_cid := evidence_cid
    passed := false
    score := 0
    checks_performed := ["error_handling"]
    details := .errorMsg e
    verification_timestamp := timestamp
    verifier_version := version }

/-- Steps 4–5 of `verify_ticket_evidence`: aggregate the check results
and assemble the `VerificationResult`
(`passed = overall_score >= quality_threshold`). -/
def aggregateResult (cfg : Config) (ticket_id evidence_cid timestamp version : String)
    (checks_results : List (String × CheckRes)) : VerificationResult :=
  let overall_score := calculate_overall_score cfg checks_results
  { ticket_id := ticket_id
    evidence_cid := evidence_cid
    passed := decide (cfg.quality_threshold ≤ overall_score)
    score := overall_score
    checks_performed := checks_results.map Prod.fst
    details := .checks checks_results
    verification_timestamp := timestamp
    verifier_version := version }

/-- The `try` body of `verify_ticket_evidence`: fetch evidence, fetch
the ticket spec, run the checks.  The two fetches are awaited calls on
the injected clients, passed here as their outcomes. -/
def verifyPipeline (cs : Checks) (fetchE : Except String Evidence)
    (fetchS : Except String TicketSpec) :
    Except String (List (String × CheckRes)) := do
  let evidence ← fetchE
  let spec ← fetchS
  perform_verification_checks cs evidence spec

/-- `TicketVerifier.verify_ticket_evidence`: run the pipeline, catch
any exception into the fallback result. -/
def verify_ticket_evidence (cfg : Config) (cs : Checks)
    (ticket_id evidence_cid timestamp version : String)
    (fetchE : Except String Evidence) (fetchS : Except String TicketSpec) :
    VerificationResult :=
  match verifyPipeline cs fetchE fetchS with
  | .ok checks_results =>
      aggregateResult cfg ticket_id evidence_cid timestamp version checks_results
  | .error e => fallbackResult ticket_id evidence_cid timestamp version e

end TicketVerifier

/-! ## MockIPFSClient, MockWeb3Client, settlement and daemon
(oryn-verifier/ticket_verifier.py, continued) -/

namespace TicketVerifier

/-- The mock IPFS store state: files written under `data/mock_ipfs`,
keyed by the bare (un-prefixed) cid. -/
def IPFSStore : Type := List (String × List (String × String))

/-- `MockIPFSClient.add_json`: the content is
`json.dumps(data, sort_keys=True)`, the cid the first 46 characters of
its hash digest, prefixed with the two characters Q and m; the file is
then written under that cid.  The hash function is the injected
`hashlib.sha256(...).hexdigest()` primitive. -/
def add_json (hash : String → String) (store : IPFSStore)
    (data : List (String × String)) : String × IPFSStore :=
  let content := dumpsSorted data
  let cid := (hash content).take 46
  ("Qm" ++ cid, (cid, data) :: store)

/-- A state-changing call recorded against the ledger. -/
inductive LedgerCall : Type
  | approveTicket (ticket_id verifier_report_cid : String)
  | approveTask (task_id report_cid : String)
deriving DecidableEq

/-- `TicketVerifier.approve_ticket_on_chain`: refuse failed results
without touching the chain; otherwise upload the report (which may
raise, caught into `None`) and call `approveTicket`.  The second
component records every ledger call made. -/
def approve_ticket_on_chain
    (upload : VerificationResult → Except String String)
    (callApprove : String → String → String)
    (verification_result : VerificationResult) :
    Option String × List LedgerCall :=
  if verification_result.passed = false then (none, [])
  else
    match upload verification_result with
    | .error _ => (none, [])
    | .ok report_cid =>
        (some (callApprove verification_result.ticket_id report_cid),
         [.approveTicket verification_result.ticket_id report_cid])

/-- Observable events of one daemon run: a ticket's evidence was
verified, its settlement step (`approve_ticket_on_chain`) completed,
and the ticket id was recorded in `processed_tickets`. -/
inductive DEvent : Type
  | verified (ticket_id : String)
  | settled (ticket_id : String)
  | marked (ticket_id : String)
deriving DecidableEq

/-- `VerifierDaemon._check_for_new_submissions`: walk the submission
list; each ticket id not yet in `processed_tickets` is verified, then
settled, and only then added to the processed set. -/
def check_for_new_submissions (processed : List String) :
    List String → List String × List DEvent
  | [] => (processed, [])
  | ticket_id :: rest =>
    if processed.contains ticket_id then
      check_for_new_submissions processed rest
    else
      let next := check_for_new_submissions (processed ++ [ticket_id]) rest
      (next.1, .verified ticket_id :: .settled ticket_id ::
        .marked ticket_id :: next.2)

/-- One daemon lifetime: the poll loop runs
`_check_for_new_submissions` once per cycle, threading
`processed_tickets` through. -/
def daemon_run (processed : List String) :
    List (List String) → List String × List DEvent
  | [] => (processed, [])
  | cycle :: cycles =>
    let r1 := check_for_new_submissions processed cycle
    let r2 := daemon_run r1.1 cycles
    (r2.1, r1.2 ++ r2.2)

/-- How many times `ev` occurs in a trace. -/
def countEv (trace : List DEvent) (ev : DEvent) : Nat :=
  trace.countP (fun e => e == ev)

/-- Every `marked t` event is preceded by a `settled t` event
(accumulator holds the ids settled so far). -/
def marksAfterSettleAux : List DEvent → List String → Bool
  | [], _ => true
  | .settled t :: rest, acc => marksAfterSettleAux rest (t :: acc)
  | .marked t :: rest, acc => acc.contains t && marksAfterSettleAux rest acc
  | .verified _ :: rest, acc => marksAfterSettleAux rest acc

/-- The settled-id accumulator after scanning a trace. -/
def settledAcc : List DEvent → List String → List String
  | [], acc => acc
  | .settled t :: rest, acc => settledAcc rest (t :: acc)
  | .marked _ :: rest, acc => settledAcc rest acc
  | .verified _ :: rest, acc => settledAcc rest acc

end TicketVerifier

/-! ## task-system/verifier_service.py -/

namespace TaskSystem

/-- `VerificationReport` dataclass of the task-system verifier. -/
structure VerificationReport : Type where
  task_id : String
  pr_url : Option String
  github_checks : List (String × String)
  content_checks : List (String × Bool)
  dod_evidence : List String
  lighthouse_score : Option Int
  security_findings : List (String × Int)
  verifier_pubkey : String
  verified_at : Int
  overall_status : String
  notes : String
  signature : String
deriving DecidableEq

/-- `status in ['success', 'completed']`. -/
def checkOk (status : String) : Bool :=
  status == "success" || status == "completed"

/-- `TaskValidator._calculate_overall_status`: count passed GitHub and
content checks; zero configured checks gives status partial, all
passed gives pass, at least 80 percent gives partial, else fail.  The
80-percent comparison is the source's `total_checks * 0.8`, embedded
exactly as the rational 8/10. -/
def calculate_overall_status (report : VerificationReport) : VerificationReport :=
  let github_passed := report.github_checks.countP (fun p => checkOk p.2)
  let github_total := report.github_checks.length
  let content_passed := report.content_checks.countP (fun p => p.2)
  let content_total := report.content_checks.length
  let total_checks := github_total + content_total
  let total_passed := github_passed + content_passed
  if total_checks = 0 then
    { report with overall_status := "partial"
                  notes := report.notes ++ "No automated checks configured. " }
  else if total_passed = total_checks then
    { report with overall_status := "pass" }
  else if (total_checks : ℚ) * (8/10) ≤ (total_passed : ℚ) then
    { report with overall_status := "partial" }
  else
    { report with overall_status := "fail" }

/-- The canonical serialization of `ReportSigner.sign_report`:
`json.dumps(report_dict, sort_keys=True, separators=(',', ':'))` after
`report_dict.pop('signature', None)`, i.e. the twelve dataclass fields
minus `signature`, keys emitted in sorted order. -/
def canonical_json (r : VerificationReport) : String :=
  "\x7b" ++
  "\"content_checks\":" ++ renderBoolMap r.content_checks ++
  ",\"dod_evidence\":" ++ renderStrList r.dod_evidence ++
  ",\"github_checks\":" ++ renderStrMap r.github_checks ++
  ",\"lighthouse_score\":" ++ renderOptInt r.lighthouse_score ++
  ",\"notes\":" ++ jstr r.notes ++
  ",\"overall_status\":" ++ jstr r.overall_status ++
  ",\"pr_url\":" ++ renderOptStr r.pr_url ++
  ",\"security_findings\":" ++ renderIntMap r.security_findings ++
  ",\"task_id\":" ++ jstr r.task_id ++
  ",\"verified_at\":" ++ toString r.verified_at ++
  ",\"verifier_pubkey\":" ++ jstr r.verifier_pubkey ++
  "\x7d"

/-- `ReportSigner.sign_report`: write the verifier public key into the
report, build the canonical JSON (which therefore already carries the
public key), sign it with the injected signing primitive, then write
the signature into the report.  Returns the updated report together
with the exact bytes that were signed. -/
def sign_report (pubkeyHex : String) (sign : String → String)
    (report : VerificationReport) : VerificationReport × String :=
  let r1 := { report with verifier_pubkey := pubkeyHex }
  let canonical := canonical_json r1
  let signature_hex := sign canonical
  ({ r1 with signature := signature_hex }, canonical)

/-- `TaskVerifierService.process_task_submission` from the point the
report exists: abort if the task sheet was missing or the IPFS pin
returned an empty cid; call the ledger `approveTask` only when the
report's overall status is pass and a blockchain client is configured.
The second component records every ledger call made. -/
def process_task_submission (task_sheet_found : Bool)
    (report : VerificationReport) (report_cid : String)
    (hasBlockchain : Bool) (txHash : String) (task_id : String) :
    Bool × List TicketVerifier.LedgerCall :=
  if task_sheet_found = false then (false, [])
  else if report_cid = "" then (false, [])
  else if report.overall_status = "pass" ∧ hasBlockchain = true then
    if txHash = "" then (false, [.approveTask task_id report_cid])
    else (true, [.approveTask task_id report_cid])
  else (true, [])

end TaskSystem

/-! ## task-system/submit_evidence.py -/

namespace TaskSystem

/-- The task view returned by `TaskRegistryClient.get_task_status`;
status codes 0 Available, 1 Claimed, 2 Submitted, 3 Approved,
4 Rejected. -/
structure TaskStatusView : Type where
  status_code : Nat
  claimer : String
  submit_deadline : Int
deriving DecidableEq

/-- Outcome of `TaskRegistryClient.submit_evidence` (the source prints
a distinct diagnostic and returns False on each failure branch). -/
inductive SubmitOutcome : Type
  | notFound
  | unauthorized
  | invalidState
  | deadlineExceeded
  | txFailed
  | success
deriving DecidableEq

/-- A state-changing transaction sent to the task registry contract. -/
inductive ChainTx : Type
  | submitEvidence (task_id evidence_cid : String)
deriving DecidableEq

/-- `TaskRegistryClient.submit_evidence`: guard on task existence,
claimer identity (case-insensitive address match), Claimed status and
submit deadline, in source order; only then send the `submitEvidence`
transaction.  The second component records every transaction sent —
the function performs no other state change. -/
def submit_evidence (task : Option TaskStatusView) (account : String)
    (now : Int) (dry_run : Bool) (txOk : Bool) (task_id evidence_cid : String) :
    SubmitOutcome × List ChainTx :=
  match task with
  | none => (.notFound, [])
  | some ts =>
    if strToLower ts.claimer ≠ strToLower account then (.unauthorized, [])
    else if ts.status_code ≠ 1 then (.invalidState, [])
    else if ts.submit_deadline > 0 ∧ now > ts.submit_deadline then
      (.deadlineExceeded, [])
    else if dry_run then (.success, [])
    else if txOk then (.success, [.submitEvidence task_id evidence_cid])
    else (.txFailed, [.submitEvidence task_id evidence_cid])

end TaskSystem

/-! ## Ledger model (TaskRegistry contract) -/

namespace LedgerModel

/-- Task lifecycle states of the ledger. -/
inductive TaskStatus : Type
  | Open
  | Claimed
  | Submitted
  | Approved
  | Paid
  | Reopened
deriving DecidableEq

/-- Ledger-side task record. -/
structure LTask : Type where
  status : TaskStatus
  claimer : String
  evidence_cid : String
  verifier_report_cid : String
deriving DecidableEq

/-- Outcome of a ledger transition call. -/
inductive LOutcome : Type
  | ok
  | invalidState
deriving DecidableEq

/-- Modelled from the spec: the TaskRegistry contract's
`approve(task_id, verifier_report_cid)` transition, whose Solidity
source is not in the repository (src/ holds only its ABI and callers).
Per the spec it is allowed only from Submitted, and idempotent:
calling it again with the same report CID on an already-Approved task
is a no-op success rather than an error. -/
def approve (t : LTask) (report_cid : String) : LOutcome × LTask :=
  match t.status with
  | .Submitted =>
      (.ok, { t with status := .Approved, verifier_report_cid := report_cid })
  | .Approved =>
      if t.verifier_report_cid = report_cid then (.ok, t)
      else (.invalidState, t)
  | _ => (.invalidState, t)

end LedgerModel

/-! ## Concrete sample data (used by witnesses and counterexamples) -/

/-- The demo evidence dict of `TicketVerifier._fetch_evidence`. -/
def sampleEvidence : TicketVerifier.Evidence :=
  { github_pr := some "https://github.com/oryn/repo/pull/123"
    files_changed := ["src/security/auth.js", "tests/auth.test.js"]
    description := "Implemented E2E encryption for chat function"
    tests_passing := true
    lint_passed := true }

/-- A ticket spec with no evidence requirements and a category that
forces no check. -/
def emptyReqSpec : TicketVerifier.TicketSpec :=
  { title := "Doc fix", category := "docs", difficulty := 1
    credit_reward := 10, dod := "done", evidence_requirements := []
    skill_tags := [], estimated_hours := 1 }

/-- A verification report with no configured automated checks. -/
def noChecksReport : TaskSystem.VerificationReport :=
  { task_id := "M1-T001", pr_url := none, github_checks := []
    content_checks := [], dod_evidence := [], lighthouse_score := none
    security_findings := [], verifier_pubkey := "", verified_at := 0
    overall_status := "fail", notes := "", signature := "" }

/-- An unsigned report as `TaskValidator.validate_task` builds it
(`verifier_pubkey` and `signature` both empty). -/
def c4UnsignedReport : TaskSystem.VerificationReport :=
  { task_id := "M1-T001", pr_url := none, github_checks := [("ci", "success")]
    content_checks := [("has_README.md", true)], dod_evidence := []
    lighthouse_score := none, security_findings := [], verifier_pubkey := ""
    verified_at := 0, overall_status := "pass", notes := "", signature := "" }

/-- The check set with a code-review check that raises. -/
def c5ThrowingChecks : TicketVerifier.Checks :=
  { TicketVerifier.defaultChecks with code_review := fun _ => .error "boom" }

/-- A spec requiring the code-review and tests checks. -/
def c5Spec : TicketVerifier.TicketSpec :=
  { title := "Fix", category := "docs", difficulty := 1
    credit_reward := 10, dod := "done"
    evidence_requirements := [("code_review", true), ("tests_passing", true)]
    skill_tags := [], estimated_hours := 1 }

/-- A Claimed task view whose submit deadline (100) has passed. -/
def c7ExpiredTask : TaskSystem.TaskStatusView :=
  { status_code := 1, claimer := "0xabc", submit_deadline := 100 }

/-! ## Claims -/

/-- Sorting the items of a dict is invariant under re-ordering of the
item list: two permuted association lists canonicalize identically. -/
theorem sortedItems_perm (d1 d2 : List (String × String)) (h : d1.Perm d2) :
    sortedItems d1 = sortedItems d2 :=
  List.eq_of_perm_of_sorted
    (((List.perm_insertionSort pairLe d1).trans h).trans
      (List.perm_insertionSort pairLe d2).symm)
    (List.sorted_insertionSort pairLe d1)
    (List.sorted_insertionSort pairLe d2)

/-- Helper for evaluating the integer zero timestamp in canonical
serializations. -/
theorem int_toString_zero : toString (0 : Int) = "0" := rfl

/-- Evaluation helper for string intercalation of a singleton tail. -/
theorem intercalate_go_nil (acc s : String) :
    String.intercalate.go acc s [] = acc := rfl

/-- C1: For every non-empty map of executed check results, the
aggregated overall score equals Σ(score·weight)/Σ(weight) over the
executed checks, where a check name absent from the configured
`check_weights` map gets weight 0.1, and the report's `passed` flag is
true exactly when that score reaches the configured
`quality_threshold` (default 0.7).  The weights looked up are assumed
positive, as every configured weight (and the 0.1 fallback) is. -/
theorem overall_score_is_weighted_average (cfg : TicketVerifier.Config)
    (crs : List (String × TicketVerifier.CheckRes))
    (tid ecid ts ver : String)
    (hne : crs ≠ [])
    (hw : ∀ p ∈ crs, 0 < TicketVerifier.weightOf cfg p.1) :
    (TicketVerifier.aggregateResult cfg tid ecid ts ver crs).score =
      (crs.map (fun p => p.2.score * TicketVerifier.weightOf cfg p.1)).sum /
      (crs.map (fun p => TicketVerifier.weightOf cfg p.1)).sum ∧
    ((TicketVerifier.aggregateResult cfg tid ecid ts ver crs).passed = true ↔
      cfg.quality_threshold ≤
        (crs.map (fun p => p.2.score * TicketVerifier.weightOf cfg p.1)).sum /
        (crs.map (fun p => TicketVerifier.weightOf cfg p.1)).sum) ∧
    (∀ name, cfg.check_weights.lookup name = none →
      TicketVerifier.weightOf cfg name = 1/10) ∧
    TicketVerifier.defaultConfig.quality_threshold = 7/10 := by
  have hpos : 0 < (crs.map (fun p => TicketVerifier.weightOf cfg p.1)).sum := by
    apply List.sum_pos
    · intro x hx
      obtain ⟨p, hp, rfl⟩ := List.mem_map.mp hx
      exact hw p hp
    · simpa using hne
  have hscore : TicketVerifier.calculate_overall_score cfg crs =
      (crs.map (fun p => p.2.score * TicketVerifier.weightOf cfg p.1)).sum /
      (crs.map (fun p => TicketVerifier.weightOf cfg p.1)).sum := by
    unfold TicketVerifier.calculate_overall_score
    rw [if_neg hne, if_pos hpos]
  refine ⟨?_, ?_, ?_, rfl⟩
  · simpa [TicketVerifier.aggregateResult] using hscore
  · simp only [TicketVerifier.aggregateResult, hscore, decide_eq_true_eq]
  · intro name hname
    simp [TicketVerifier.weightOf, hname]

/-- Witness for C1 at the default configuration and a single executed
code-review check. -/
theorem overall_score_is_weighted_average_witness :
    ([(("code_review" : String), TicketVerifier.check_code_review sampleEvidence)] ≠ [] ∧
      ∀ p ∈ [(("code_review" : String), TicketVerifier.check_code_review sampleEvidence)],
        0 < TicketVerifier.weightOf TicketVerifier.defaultConfig p.1) ∧
    ((TicketVerifier.aggregateResult TicketVerifier.defaultConfig "t1" "QmE" "now" "0.1.0-alpha"
        [("code_review", TicketVerifier.check_code_review sampleEvidence)]).score =
      ([(("code_review" : String), TicketVerifier.check_code_review sampleEvidence)].map
        (fun p => p.2.score * TicketVerifier.weightOf TicketVerifier.defaultConfig p.1)).sum /
      ([(("code_review" : String), TicketVerifier.check_code_review sampleEvidence)].map
        (fun p => TicketVerifier.weightOf TicketVerifier.defaultConfig p.1)).sum) := by
  constructor
  · constructor
    · simp
    · intro p hp
      rw [List.mem_singleton] at hp
      subst hp
      norm_num [TicketVerifier.weightOf, TicketVerifier.defaultConfig, List.lookup]
  · exact (overall_score_is_weighted_average TicketVerifier.defaultConfig
      [("code_review", TicketVerifier.check_code_review sampleEvidence)] "t1" "QmE" "now"
      "0.1.0-alpha" (by simp)
      (by intro p hp
          rw [List.mem_singleton] at hp
          subst hp
          norm_num [TicketVerifier.weightOf, TicketVerifier.defaultConfig, List.lookup])).1

/-- C2 counterexample: with zero executed checks the claim requires the
aggregated overall-status outcome to be the failing outcome, but
`TaskValidator._calculate_overall_status` on a report with no GitHub
and no content checks sets `overall_status` to "partial", which is not
the failing outcome "fail". -/
theorem zero_checks_status_not_fail :
    (TaskSystem.calculate_overall_status noChecksReport).overall_status = "partial" ∧
    ("partial" : String) ≠ "fail" := by
  constructor
  · rfl
  · decide

/-- C2 (amended): with zero checks executed (empty
`evidence_requirements`, no category-forced check) the ticket
verifier's overall score is exactly 0 and `passed` is false (for any
positive quality threshold, never a default-true outcome, and without
dividing by zero); the task-system validator's
`_calculate_overall_status` with zero configured checks yields
"partial" — not the passing status, but not the failing status
either. -/
theorem zero_checks_amended (cfg : TicketVerifier.Config)
    (cs : TicketVerifier.Checks) (tid ecid ts ver : String)
    (ev : TicketVerifier.Evidence) (sp : TicketVerifier.TicketSpec)
    (hq : 0 < cfg.quality_threshold)
    (hreqs : sp.evidence_requirements = [])
    (hcat1 : sp.category ≠ "security") (hcat2 : sp.category ≠ "ui") :
    (TicketVerifier.verify_ticket_evidence cfg cs tid ecid ts ver
        (.ok ev) (.ok sp)).score = 0 ∧
    (TicketVerifier.verify_ticket_evidence cfg cs tid ecid ts ver
        (.ok ev) (.ok sp)).passed = false ∧
    (∀ r : TaskSystem.VerificationReport, r.github_checks = [] →
      r.content_checks = [] →
      (TaskSystem.calculate_overall_status r).overall_status = "partial" ∧
      (TaskSystem.calculate_overall_status r).overall_status ≠ "pass") := by
  have hperf : TicketVerifier.perform_verification_checks cs ev sp = .ok [] := by
    simp only [TicketVerifier.perform_verification_checks, TicketVerifier.addCheck,
      TicketVerifier.reqGet, hreqs, hcat1, hcat2]
    simp
    rfl
  have hpipe : TicketVerifier.verifyPipeline cs (.ok ev) (.ok sp) =
      TicketVerifier.perform_verification_checks cs ev sp := rfl
  have hverify : TicketVerifier.verify_ticket_evidence cfg cs tid ecid ts ver
      (.ok ev) (.ok sp) = TicketVerifier.aggregateResult cfg tid ecid ts ver [] := by
    simp only [TicketVerifier.verify_ticket_evidence, hpipe, hperf]
  have hscore : TicketVerifier.calculate_overall_score cfg [] = 0 := rfl
  refine ⟨?_, ?_, ?_⟩
  · rw [hverify]
    simp [TicketVerifier.aggregateResult, hscore]
  · rw [hverify]
    simp only [TicketVerifier.aggregateResult, hscore]
    exact decide_eq_false (not_le.mpr hq)
  · intro r hg hc
    have : (TaskSystem.calculate_overall_status r).overall_status = "partial" := by
      simp [TaskSystem.calculate_overall_status, hg, hc]
    exact ⟨this, by rw [this]; decide⟩

/-- Witness for C2 (amended) at the default configuration and a spec
with no evidence requirements. -/
theorem zero_checks_amended_witness :
    (0 < TicketVerifier.defaultConfig.quality_threshold ∧
      emptyReqSpec.evidence_requirements = [] ∧
      emptyReqSpec.category ≠ "security" ∧ emptyReqSpec.category ≠ "ui") ∧
    ((TicketVerifier.verify_ticket_evidence TicketVerifier.defaultConfig
        TicketVerifier.defaultChecks "t1" "QmE" "now" "0.1.0-alpha"
        (.ok sampleEvidence) (.ok emptyReqSpec)).score = 0 ∧
      (TicketVerifier.verify_ticket_evidence TicketVerifier.defaultConfig
        TicketVerifier.defaultChecks "t1" "QmE" "now" "0.1.0-alpha"
        (.ok sampleEvidence) (.ok emptyReqSpec)).passed = false) := by
  have hq : 0 < TicketVerifier.defaultConfig.quality_threshold := by
    norm_num [TicketVerifier.defaultConfig]
  have h := zero_checks_amended TicketVerifier.defaultConfig
    TicketVerifier.defaultChecks "t1" "QmE" "now" "0.1.0-alpha" sampleEvidence
    emptyReqSpec hq rfl (by decide) (by decide)
  exact ⟨⟨hq, rfl, by decide, by decide⟩, h.1, h.2.1⟩

/-- C3: a verification result whose `passed` flag is false (or whose
overall status is not "pass") never triggers the on-chain approval: in
`approve_ticket_on_chain` the ledger is not touched at all and no
transaction hash is produced, and in `process_task_submission` no
`approveTask` ledger call is emitted. -/
theorem failed_verification_never_calls_ledger
    (upload : TicketVerifier.VerificationResult → Except String String)
    (callApprove : String → String → String)
    (res : TicketVerifier.VerificationResult)
    (sheetFound hasBC : Bool) (report : TaskSystem.VerificationReport)
    (report_cid txHash task_id : String)
    (hres : res.passed = false)
    (hrep : report.overall_status ≠ "pass") :
    TicketVerifier.approve_ticket_on_chain upload callApprove res = (none, []) ∧
    (TaskSystem.process_task_submission sheetFound report report_cid hasBC
      txHash task_id).2 = [] := by
  constructor
  · simp [TicketVerifier.approve_ticket_on_chain, hres]
  · by_cases h1 : sheetFound = false <;> by_cases h2 : report_cid = "" <;>
      simp [TaskSystem.process_task_submission, h1, h2, hrep]

/-- Witness for C3 at a concrete failed result and a concrete failed
report. -/
theorem failed_verification_never_calls_ledger_witness :
    ((TicketVerifier.fallbackResult "t1" "QmE" "now" "0.1.0-alpha" "boom").passed = false ∧
      noChecksReport.overall_status ≠ "pass") ∧
    (TicketVerifier.approve_ticket_on_chain (fun _ => .ok "QmR") (fun _ _ => "0x1")
        (TicketVerifier.fallbackResult "t1" "QmE" "now" "0.1.0-alpha" "boom") = (none, []) ∧
      (TaskSystem.process_task_submission true noChecksReport "QmR" true "0x2"
        "M1-T001").2 = []) := by
  refine ⟨⟨rfl, by decide⟩, ?_⟩
  exact failed_verification_never_calls_ledger (fun _ => .ok "QmR") (fun _ _ => "0x1")
    (TicketVerifier.fallbackResult "t1" "QmE" "now" "0.1.0-alpha" "boom")
    true true noChecksReport "QmR" "0x2" "M1-T001" rfl (by decide)

/-- C4 counterexample: the claim requires the signature and the
verifier public key to be written into the report only after signing,
so the bytes signed would be the canonical serialization of the report
with `verifier_pubkey` still empty.  In `sign_report` the public key
is written first: at this concrete report the bytes actually signed
differ from the canonicalization of the pubkey-empty report and equal
the canonicalization of the report with the pubkey already set. -/
theorem sign_report_sets_pubkey_before_signing :
    (TaskSystem.sign_report "ab" (fun _ => "cafe") c4UnsignedReport).2 ≠
      TaskSystem.canonical_json c4UnsignedReport ∧
    (TaskSystem.sign_report "ab" (fun _ => "cafe") c4UnsignedReport).2 =
      TaskSystem.canonical_json
        { c4UnsignedReport with verifier_pubkey := "ab" } := by
  constructor
  · simp [TaskSystem.sign_report, TaskSystem.canonical_json, c4UnsignedReport,
      renderBoolMap, renderStrList, renderStrMap, renderOptInt, renderOptStr,
      renderIntMap, jstr, jsonEscape, List.insertionSort, escChar, String.join,
      String.intercalate, String.singleton, String.push, int_toString_zero,
      renderBool, intercalate_go_nil]
  · rfl

/-- C4 (amended): `sign_report` starts from a report built with
`signature` and `verifier_pubkey` both empty, but writes the
verifier's public key into the report before serializing; the
canonical serialization is deterministic (a pure function of the
report, sorted keys, stable separators) and excludes exactly the
`signature` field — so it includes the public key — the signature is
computed over those bytes and only the signature is written after
signing.  Two reports with identical logical content yield
byte-identical signed bytes. -/
theorem sign_report_amended (pk : String) (sign : String → String)
    (r r2 : TaskSystem.VerificationReport) :
    (∀ s, TaskSystem.canonical_json { r with signature := s } =
      TaskSystem.canonical_json r) ∧
    (TaskSystem.sign_report pk sign r).1.verifier_pubkey = pk ∧
    (TaskSystem.sign_report pk sign r).1.signature =
      sign (TaskSystem.sign_report pk sign r).2 ∧
    (TaskSystem.sign_report pk sign r).2 =
      TaskSystem.canonical_json { r with verifier_pubkey := pk } ∧
    (r = r2 → (TaskSystem.sign_report pk sign r).2 =
      (TaskSystem.sign_report pk sign r2).2) := by
  refine ⟨fun s => rfl, rfl, rfl, rfl, fun h => by rw [h]⟩

/-- Witness for C4 (amended) at a concrete report. -/
theorem sign_report_amended_witness :
    (c4UnsignedReport = c4UnsignedReport) ∧
    (TaskSystem.sign_report "ab" (fun _ => "cafe") c4UnsignedReport).2 =
      (TaskSystem.sign_report "ab" (fun _ => "cafe") c4UnsignedReport).2 :=
  ⟨rfl, (sign_report_amended "ab" (fun _ => "cafe") c4UnsignedReport
    c4UnsignedReport).2.2.2.2 rfl⟩

/-- C5 counterexample: the claim requires that when exactly one check
throws, the other checks' results are still computed and included.
Concretely, with a code-review check that raises "boom" and a spec
that also requires the (successfully evaluating) tests check, the
returned result carries only the error-handling fallback: the
tests-check result is absent and the whole evaluation was replaced. -/
theorem throwing_check_aborts_other_checks :
    (TicketVerifier.verify_ticket_evidence TicketVerifier.defaultConfig
      c5ThrowingChecks "t1" "QmE" "now" "0.1.0-alpha"
      (.ok sampleEvidence) (.ok c5Spec)).checks_performed = ["error_handling"] ∧
    ("tests_passing" ∉
      (TicketVerifier.verify_ticket_evidence TicketVerifier.defaultConfig
        c5ThrowingChecks "t1" "QmE" "now" "0.1.0-alpha"
        (.ok sampleEvidence) (.ok c5Spec)).checks_performed) ∧
    (TicketVerifier.verify_ticket_evidence TicketVerifier.defaultConfig
      c5ThrowingChecks "t1" "QmE" "now" "0.1.0-alpha"
      (.ok sampleEvidence) (.ok c5Spec)).details = .errorMsg "boom" := by
  refine ⟨rfl, ?_, rfl⟩
  show ¬ _ ∈ (["error_handling"] : List String)
  decide

/-- C5 (amended): an individual check that throws is not isolated:
its error propagates out of `_perform_verification_checks`, aborting
the evaluation of the remaining checks, and `verify_ticket_evidence`
replaces all check results by the fallback result (`passed` false,
score 0, `checks_performed` = ["error_handling"], the error message in
`details`).  In particular a required code-review check that raises
makes the whole check phase raise. -/
theorem throwing_check_replaces_evaluation (cfg : TicketVerifier.Config)
    (cs : TicketVerifier.Checks) (tid ecid ts ver e : String)
    (ev : TicketVerifier.Evidence) (sp : TicketVerifier.TicketSpec) :
    (TicketVerifier.perform_verification_checks cs ev sp = .error e →
      TicketVerifier.verify_ticket_evidence cfg cs tid ecid ts ver
        (.ok ev) (.ok sp) = TicketVerifier.fallbackResult tid ecid ts ver e) ∧
    (TicketVerifier.reqGet sp.evidence_requirements "code_review" = true →
      cs.code_review ev = .error e →
      TicketVerifier.perform_verification_checks cs ev sp = .error e) ∧
    (TicketVerifier.fallbackResult tid ecid ts ver e).passed = false ∧
    (TicketVerifier.fallbackResult tid ecid ts ver e).score = 0 ∧
    (TicketVerifier.fallbackResult tid ecid ts ver e).details = .errorMsg e := by
  have hpipe : TicketVerifier.verifyPipeline cs (.ok ev) (.ok sp) =
      TicketVerifier.perform_verification_checks cs ev sp := rfl
  refine ⟨?_, ?_, rfl, rfl, rfl⟩
  · intro hperf
    simp only [TicketVerifier.verify_ticket_evidence, hpipe, hperf]
  · intro hreq herr
    simp only [TicketVerifier.perform_verification_checks, TicketVerifier.addCheck,
      hreq, herr, Except.map, if_true]
    rfl

/-- Witness for C5 (amended) at the concrete throwing check set. -/
theorem throwing_check_replaces_evaluation_witness :
    (TicketVerifier.reqGet c5Spec.evidence_requirements "code_review" = true ∧
      c5ThrowingChecks.code_review sampleEvidence = .error "boom") ∧
    TicketVerifier.verify_ticket_evidence TicketVerifier.defaultConfig
      c5ThrowingChecks "t1" "QmE" "now" "0.1.0-alpha"
      (.ok sampleEvidence) (.ok c5Spec) =
      TicketVerifier.fallbackResult "t1" "QmE" "now" "0.1.0-alpha" "boom" := by
  have h := throwing_check_replaces_evaluation TicketVerifier.defaultConfig
    c5ThrowingChecks "t1" "QmE" "now" "0.1.0-alpha" "boom" sampleEvidence c5Spec
  exact ⟨⟨rfl, rfl⟩, h.1 (h.2.1 rfl rfl)⟩

/-- C6: on the spec-modelled ledger `approve` transition, approving a
Submitted task succeeds, and calling `approve` again with the same
report CID on the now-Approved task succeeds again and leaves the task
record completely unchanged — a no-op success, not an error and not a
new state mutation. -/
theorem approve_idempotent (t : LedgerModel.LTask) (cid : String)
    (h : t.status = .Submitted) :
    (LedgerModel.approve t cid).1 = .ok ∧
    (LedgerModel.approve (LedgerModel.approve t cid).2 cid).1 = .ok ∧
    (LedgerModel.approve (LedgerModel.approve t cid).2 cid).2 =
      (LedgerModel.approve t cid).2 := by
  obtain ⟨st, cl, ecid, rcid⟩ := t
  simp only at h
  subst h
  simp [LedgerModel.approve]

/-- Witness for C6 at a concrete Submitted task. -/
theorem approve_idempotent_witness :
    (({ status := .Submitted, claimer := "0xabc", evidence_cid := "QmE",
        verifier_report_cid := "" } : LedgerModel.LTask).status = .Submitted) ∧
    (LedgerModel.approve (LedgerModel.approve
        { status := .Submitted, claimer := "0xabc", evidence_cid := "QmE",
          verifier_report_cid := "" } "QmR").2 "QmR").2 =
      (LedgerModel.approve
        { status := .Submitted, claimer := "0xabc", evidence_cid := "QmE",
          verifier_report_cid := "" } "QmR").2 :=
  ⟨rfl, (approve_idempotent
    { status := .Submitted, claimer := "0xabc", evidence_cid := "QmE",
      verifier_report_cid := "" } "QmR" rfl).2.2⟩

/-- C7 counterexample: the claim requires that when the submit
deadline has passed, the task is transitioned to Reopened as a side
effect of the failing submit.  On a concrete Claimed task with an
expired deadline, `TaskRegistryClient.submit_evidence` reports the
deadline failure but sends no state-changing transaction whatsoever —
no transition of any kind is performed (the client's status space has
no Reopened state at all). -/
theorem submit_deadline_no_reopen_transition :
    TaskSystem.submit_evidence (some c7ExpiredTask) "0xABC" 200 false true
      "T1" "QmE" = (.deadlineExceeded, []) := by
  rfl

/-- C7 (amended): `submit_evidence` succeeds only when the task exists
in the Claimed state (status code 1), the caller is the current
claimer (case-insensitive address match) and the submit deadline, if
set, has not passed; a non-claimer caller fails with the unauthorized
outcome, an expired deadline fails with the deadline-exceeded outcome,
and in every failure case the client sends no transaction — in
particular no Reopened transition is performed. -/
theorem submit_evidence_guards (ts : TaskSystem.TaskStatusView)
    (account : String) (now : Int) (dry_run txOk : Bool)
    (task_id evidence_cid : String) :
    ((TaskSystem.submit_evidence (some ts) account now dry_run txOk
        task_id evidence_cid).1 = .success →
      ts.status_code = 1 ∧ strToLower ts.claimer = strToLower account ∧
      ¬(ts.submit_deadline > 0 ∧ now > ts.submit_deadline)) ∧
    (strToLower ts.claimer ≠ strToLower account →
      TaskSystem.submit_evidence (some ts) account now dry_run txOk
        task_id evidence_cid = (.unauthorized, [])) ∧
    (strToLower ts.claimer = strToLower account → ts.status_code = 1 →
      ts.submit_deadline > 0 → now > ts.submit_deadline →
      TaskSystem.submit_evidence (some ts) account now dry_run txOk
        task_id evidence_cid = (.deadlineExceeded, [])) ∧
    TaskSystem.submit_evidence none account now dry_run txOk
      task_id evidence_cid = (.notFound, []) := by
  refine ⟨?_, ?_, ?_, rfl⟩
  · intro hsucc
    by_cases h1 : strToLower ts.claimer = strToLower account
    · by_cases h2 : ts.status_code = 1
      · by_cases h3 : ts.submit_deadline > 0 ∧ now > ts.submit_deadline
        · simp [TaskSystem.submit_evidence, h1, h2, h3] at hsucc
        · exact ⟨h2, h1, h3⟩
      · simp [TaskSystem.submit_evidence, h1, h2] at hsucc
    · simp [TaskSystem.submit_evidence, h1] at hsucc
  · intro h1
    simp [TaskSystem.submit_evidence, h1]
  · intro h1 h2 h3 h4
    simp [TaskSystem.submit_evidence, h1, h2, h3, h4]

/-- Witness for C7 (amended): a non-claimer caller on a Claimed task
is rejected as unauthorized without any transaction. -/
theorem submit_evidence_guards_witness :
    (strToLower c7ExpiredTask.claimer ≠ strToLower "0xdef") ∧
    TaskSystem.submit_evidence (some c7ExpiredTask) "0xdef" 50 false true
      "T1" "QmE" = (.unauthorized, []) := by
  have h := submit_evidence_guards c7ExpiredTask "0xdef" 50 false true "T1" "QmE"
  exact ⟨by decide, h.2.1 (by decide)⟩

/-- C8: the CID returned by `MockIPFSClient.add_json` is a
deterministic hash of the canonicalized content: putting two evidence
documents with identical content (the same key-value pairs, in any
order) returns the same CID, regardless of the store state of the run
performing the put. -/
theorem add_json_cid_deterministic (hash : String → String)
    (s1 s2 : TicketVerifier.IPFSStore)
    (d1 d2 : List (String × String)) (h : d1.Perm d2) :
    (TicketVerifier.add_json hash s1 d1).1 =
      (TicketVerifier.add_json hash s2 d2).1 := by
  have hdump : dumpsSorted d1 = dumpsSorted d2 := by
    unfold dumpsSorted
    rw [sortedItems_perm d1 d2 h]
  simp [TicketVerifier.add_json, hdump]

/-- Witness for C8: the same two-entry document in two different
insertion orders, put into two different stores, yields one CID. -/
theorem add_json_cid_deterministic_witness :
    ([(("github_pr" : String), ("url" : String)), ("description", "fix")].Perm
      [("description", "fix"), ("github_pr", "url")]) ∧
    (TicketVerifier.add_json (fun s => s) []
        [("github_pr", "url"), ("description", "fix")]).1 =
      (TicketVerifier.add_json (fun s => s) [("x", [])]
        [("description", "fix"), ("github_pr", "url")]).1 := by
  have hperm : ([(("github_pr" : String), ("url" : String)), ("description", "fix")].Perm
      [("description", "fix"), ("github_pr", "url")]) := List.Perm.swap _ _ _
  exact ⟨hperm, add_json_cid_deterministic (fun s => s) [] [("x", [])]
    [("github_pr", "url"), ("description", "fix")]
    [("description", "fix"), ("github_pr", "url")] hperm⟩

/-- C10: `verify_ticket_evidence` is total — it returns a
`VerificationResult` for every outcome of its internal steps — and
whenever the internal pipeline (evidence fetch, spec fetch, check
execution) raises, the returned result is the fallback: `passed`
false, score 0, `checks_performed` = ["error_handling"], and the error
message recorded in `details`. -/
theorem verify_ticket_evidence_error_fallback (cfg : TicketVerifier.Config)
    (cs : TicketVerifier.Checks) (tid ecid ts ver e : String)
    (fetchE : Except String TicketVerifier.Evidence)
    (fetchS : Except String TicketVerifier.TicketSpec)
    (h : TicketVerifier.verifyPipeline cs fetchE fetchS = .error e) :
    (TicketVerifier.verify_ticket_evidence cfg cs tid ecid ts ver
        fetchE fetchS).passed = false ∧
    (TicketVerifier.verify_ticket_evidence cfg cs tid ecid ts ver
        fetchE fetchS).score = 0 ∧
    (TicketVerifier.verify_ticket_evidence cfg cs tid ecid ts ver
        fetchE fetchS).checks_performed = ["error_handling"] ∧
    (TicketVerifier.verify_ticket_evidence cfg cs tid ecid ts ver
        fetchE fetchS).details = .errorMsg e := by
  simp only [TicketVerifier.verify_ticket_evidence, h]
  exact ⟨rfl, rfl, rfl, rfl⟩

/-- Witness for C10 at a failing evidence fetch. -/
theorem verify_ticket_evidence_error_fallback_witness :
    (TicketVerifier.verifyPipeline TicketVerifier.defaultChecks
      (.error "ipfs down") (.ok emptyReqSpec) = .error "ipfs down") ∧
    ((TicketVerifier.verify_ticket_evidence TicketVerifier.defaultConfig
        TicketVerifier.defaultChecks "t1" "QmE" "now" "0.1.0-alpha"
        (.error "ipfs down") (.ok emptyReqSpec)).passed = false ∧
      (TicketVerifier.verify_ticket_evidence TicketVerifier.defaultConfig
        TicketVerifier.defaultChecks "t1" "QmE" "now" "0.1.0-alpha"
        (.error "ipfs down") (.ok emptyReqSpec)).checks_performed =
        ["error_handling"]) := by
  have h := verify_ticket_evidence_error_fallback TicketVerifier.defaultConfig
    TicketVerifier.defaultChecks "t1" "QmE" "now" "0.1.0-alpha" "ipfs down"
    (.error "ipfs down") (.ok emptyReqSpec) rfl
  exact ⟨rfl, h.1, h.2.2.1⟩

namespace TicketVerifier

theorem cycle_inv (t : String) (subs : List String) : ∀ (p : List String),
    (t ∈ p →
      countEv (check_for_new_submissions p subs).2 (.verified t) = 0 ∧
      countEv (check_for_new_submissions p subs).2 (.settled t) = 0) ∧
    countEv (check_for_new_submissions p subs).2 (.verified t) ≤ 1 ∧
    countEv (check_for_new_submissions p subs).2 (.settled t) ≤ 1 ∧
    (t ∈ p → t ∈ (check_for_new_submissions p subs).1) ∧
    (1 ≤ countEv (check_for_new_submissions p subs).2 (.verified t) →
      t ∈ (check_for_new_submissions p subs).1) ∧
    (1 ≤ countEv (check_for_new_submissions p subs).2 (.settled t) →
      t ∈ (check_for_new_submissions p subs).1) := by
  induction subs with
  | nil =>
    intro p
    simp [check_for_new_submissions, countEv]
  | cons s rest ih =>
    intro p
    by_cases hs : s ∈ p
    · simpa [check_for_new_submissions, hs] using ih p
    · by_cases hst : s = t
      · subst hst
        have hp1 : s ∈ p ++ [s] := by simp
        have IH := ih (p ++ [s])
        have hv0 := (IH.1 hp1).1
        have hs0 := (IH.1 hp1).2
        have hfin := IH.2.2.2.1 hp1
        refine ⟨fun hpt => absurd hpt hs, ?_, ?_, fun hpt => absurd hpt hs, ?_, ?_⟩
        · simp [check_for_new_submissions, hs, countEv, List.countP_cons] at hv0 ⊢
          exact hv0
        · simp [check_for_new_submissions, hs, countEv, List.countP_cons] at hs0 ⊢
          exact hs0
        · intro _
          simpa [check_for_new_submissions, hs] using hfin
        · intro _
          simpa [check_for_new_submissions, hs] using hfin
      · have IH := ih (p ++ [s])
        have hmem : t ∈ p → t ∈ p ++ [s] := fun h => by simp [h]
        refine ⟨?_, ?_, ?_, ?_, ?_, ?_⟩
        · intro hpt
          have h1 := IH.1 (hmem hpt)
          simp [check_for_new_submissions, hs, countEv, List.countP_cons, hst] at h1 ⊢
          exact h1
        · have := IH.2.1
          simp [check_for_new_submissions, hs, countEv, List.countP_cons, hst] at this ⊢
          omega
        · have := IH.2.2.1
          simp [check_for_new_submissions, hs, countEv, List.countP_cons, hst] at this ⊢
          omega
        · intro hpt
          have := IH.2.2.2.1 (hmem hpt)
          simpa [check_for_new_submissions, hs] using this
        · intro hcnt
          simp [check_for_new_submissions, hs, countEv, List.countP_cons, hst] at hcnt ⊢
          exact IH.2.2.2.2.1 (by simpa [countEv] using hcnt)
        · intro hcnt
          simp [check_for_new_submissions, hs, countEv, List.countP_cons, hst] at hcnt ⊢
          exact IH.2.2.2.2.2 (by simpa [countEv] using hcnt)

end TicketVerifier

namespace TicketVerifier

theorem run_inv (t : String) (cycles : List (List String)) : ∀ (p : List String),
    (t ∈ p →
      countEv (daemon_run p cycles).2 (.verified t) = 0 ∧
      countEv (daemon_run p cycles).2 (.settled t) = 0) ∧
    countEv (daemon_run p cycles).2 (.verified t) ≤ 1 ∧
    countEv (daemon_run p cycles).2 (.settled t) ≤ 1 ∧
    (t ∈ p → t ∈ (daemon_run p cycles).1) ∧
    (1 ≤ countEv (daemon_run p cycles).2 (.verified t) →
      t ∈ (daemon_run p cycles).1) ∧
    (1 ≤ countEv (daemon_run p cycles).2 (.settled t) →
      t ∈ (daemon_run p cycles).1) := by
  induction cycles with
  | nil =>
    intro p
    simp [daemon_run, countEv]
  | cons c cs ih =>
    intro p
    have C := cycle_inv t c p
    have IH := ih (check_for_new_submissions p c).1
    have happ : (daemon_run p (c :: cs)).2 =
        (check_for_new_submissions p c).2 ++
        (daemon_run (check_for_new_submissions p c).1 cs).2 := rfl
    have hfst : (daemon_run p (c :: cs)).1 =
        (daemon_run (check_for_new_submissions p c).1 cs).1 := rfl
    have hcv : countEv (daemon_run p (c :: cs)).2 (.verified t) =
        countEv (check_for_new_submissions p c).2 (.verified t) +
        countEv (daemon_run (check_for_new_submissions p c).1 cs).2 (.verified t) := by
      rw [happ]
      simp [countEv, List.countP_append]
    have hcs : countEv (daemon_run p (c :: cs)).2 (.settled t) =
        countEv (check_for_new_submissions p c).2 (.settled t) +
        countEv (daemon_run (check_for_new_submissions p c).1 cs).2 (.settled t) := by
      rw [happ]
      simp [countEv, List.countP_append]
    refine ⟨?_, ?_, ?_, ?_, ?_, ?_⟩
    · intro hpt
      have h1 := C.1 hpt
      have hmem := C.2.2.2.1 hpt
      have h2 := IH.1 hmem
      rw [hcv, hcs]
      omega
    · rw [hcv]
      by_cases h1 : 1 ≤ countEv (check_for_new_submissions p c).2 (.verified t)
      · have hmem := C.2.2.2.2.1 h1
        have h2 := (IH.1 hmem).1
        have := C.2.1
        omega
      · have := IH.2.1
        omega
    · rw [hcs]
      by_cases h1 : 1 ≤ countEv (check_for_new_submissions p c).2 (.settled t)
      · have hmem := C.2.2.2.2.2 h1
        have h2 := (IH.1 hmem).2
        have := C.2.2.1
        omega
      · have := IH.2.2.1
        omega
    · intro hpt
      rw [hfst]
      exact IH.2.2.2.1 (C.2.2.2.1 hpt)
    · rw [hcv, hfst]
      intro hcnt
      by_cases h1 : 1 ≤ countEv (check_for_new_submissions p c).2 (.verified t)
      · exact IH.2.2.2.1 (C.2.2.2.2.1 h1)
      · exact IH.2.2.2.2.1 (by omega)
    · rw [hcs, hfst]
      intro hcnt
      by_cases h1 : 1 ≤ countEv (check_for_new_submissions p c).2 (.settled t)
      · exact IH.2.2.2.1 (C.2.2.2.2.2 h1)
      · exact IH.2.2.2.2.2 (by omega)


theorem settledAcc_append (e1 e2 : List DEvent) : ∀ acc,
    settledAcc (e1 ++ e2) acc = settledAcc e2 (settledAcc e1 acc) := by
  induction e1 with
  | nil => intro acc; rfl
  | cons e rest ih =>
    intro acc
    cases e <;> simp [settledAcc, ih]

theorem marksAfterSettleAux_append (e1 e2 : List DEvent) : ∀ acc,
    marksAfterSettleAux (e1 ++ e2) acc =
      (marksAfterSettleAux e1 acc && marksAfterSettleAux e2 (settledAcc e1 acc)) := by
  induction e1 with
  | nil => intro acc; simp [marksAfterSettleAux, settledAcc]
  | cons e rest ih =>
    intro acc
    cases e with
    | verified t => simp [marksAfterSettleAux, settledAcc, ih]
    | settled t => simp [marksAfterSettleAux, settledAcc, ih]
    | marked t => simp [marksAfterSettleAux, settledAcc, ih, Bool.and_assoc]

theorem cycle_marks (subs : List String) : ∀ (p acc : List String),
    marksAfterSettleAux (check_for_new_submissions p subs).2 acc = true := by
  induction subs with
  | nil => intro p acc; rfl
  | cons s rest ih =>
    intro p acc
    by_cases hs : s ∈ p
    · simpa [check_for_new_submissions, hs] using ih p acc
    · simp [check_for_new_submissions, hs, marksAfterSettleAux]
      exact ih (p ++ [s]) (s :: acc)

theorem run_marks (cycles : List (List String)) : ∀ (p acc : List String),
    marksAfterSettleAux (daemon_run p cycles).2 acc = true := by
  induction cycles with
  | nil => intro p acc; rfl
  | cons c cs ih =>
    intro p acc
    have happ : (daemon_run p (c :: cs)).2 =
        (check_for_new_submissions p c).2 ++
        (daemon_run (check_for_new_submissions p c).1 cs).2 := rfl
    rw [happ, marksAfterSettleAux_append, cycle_marks c p acc, ih]
    rfl

end TicketVerifier

/-- C9: within one daemon run, each ticket id is verified at most once
and settled at most once across all poll cycles; a ticket id already
in the processed set at the start of the run is never verified or
settled; and a ticket id is recorded as processed only after its
settlement step has completed (every `marked` event in the run's trace
is preceded by the corresponding `settled` event). -/
theorem daemon_processes_each_ticket_once (p : List String)
    (cycles : List (List String)) (t : String) :
    TicketVerifier.countEv (TicketVerifier.daemon_run p cycles).2
      (.verified t) ≤ 1 ∧
    TicketVerifier.countEv (TicketVerifier.daemon_run p cycles).2
      (.settled t) ≤ 1 ∧
    (t ∈ p →
      TicketVerifier.countEv (TicketVerifier.daemon_run p cycles).2
        (.verified t) = 0 ∧
      TicketVerifier.countEv (TicketVerifier.daemon_run p cycles).2
        (.settled t) = 0) ∧
    TicketVerifier.marksAfterSettleAux (TicketVerifier.daemon_run p cycles).2
      [] = true := by
  have h := TicketVerifier.run_inv t cycles p
  exact ⟨h.2.1, h.2.2.1, fun hp => h.1 hp,
    TicketVerifier.run_marks cycles p []⟩

/-- Witness for C9: a run that starts with ticket_001 already
processed and sees it resubmitted in two cycles never touches it. -/
theorem daemon_processes_each_ticket_once_witness :
    (("ticket_001" : String) ∈ (["ticket_001"] : List String)) ∧
    (TicketVerifier.countEv (TicketVerifier.daemon_run ["ticket_001"]
        [["ticket_001", "ticket_002"], ["ticket_001"]]).2
        (.verified "ticket_001") = 0 ∧
      TicketVerifier.countEv (TicketVerifier.daemon_run ["ticket_001"]
        [["ticket_001", "ticket_002"], ["ticket_001"]]).2
        (.settled "ticket_001") = 0) := by
  have h := daemon_processes_each_ticket_once ["ticket_001"]
    [["ticket_001", "ticket_002"], ["ticket_001"]] "ticket_001"
  exact ⟨by simp, h.2.2.1 (by simp)⟩
